import Mathlib

/-!
Shallow embedding of the live-streaming coordinator of this repository:
the RTMP server (src/routes/streamRoutes.js, class RTMPServer), the
realtime fan-out server (src/services/webSocketServer.js, class
WebSocketServer) and the recording service
(src/services/recordingService.js, class RecordingService).

JavaScript Map objects keyed by strings are embedded as association
lists with Map semantics (unique keys; set replaces the entry in place,
new keys are appended in insertion order).  JS Set objects of socket ids
are embedded as Finset Nat.  Database documents (User, Stream) are
embedded as records; asynchronous lookups become list lookups; a JWT
token is embedded as the Option of the user id it decodes to (none for
a missing or invalid token, since both paths throw and are handled the
same way).  Thrown JS errors become Except.error carrying the message.
-/

namespace RMtp

/-- Association-list lookup with JS Map.get semantics (first entry wins;
keys are unique in a real Map). -/
def mapLookup {α : Type} : List (String × α) → String → Option α
  | [], _ => none
  | p :: rest, k => if p.1 = k then some p.2 else mapLookup rest k

/-- Association-list update with JS Map.set semantics: replace the entry
for an existing key in place, append a new key at the end. -/
def mapSet {α : Type} : List (String × α) → String → α → List (String × α)
  | [], k, v => [(k, v)]
  | p :: rest, k, v => if p.1 = k then (k, v) :: rest else p :: mapSet rest k v

/-- Association-list removal with JS Map.delete semantics. -/
def mapErase {α : Type} : List (String × α) → String → List (String × α)
  | [], _ => []
  | p :: rest, k => if p.1 = k then mapErase rest k else p :: mapErase rest k

/-- A user document (src/models/User.js): id, role, the stream key the
user owns, and follower ids. -/
structure User where
  id : Nat
  role : String
  streamKey : String
  followers : List Nat
  username : String
deriving DecidableEq, Repr

/-- A stream document (src/models/Stream.js): database id, owner user id,
stream key, privacy flag, live flag and timestamps (milliseconds). -/
structure StreamRec where
  id : String
  user : Nat
  streamKey : String
  isPrivate : Bool
  isLive : Bool
  startedAt : Option Nat
  endedAt : Option Nat
deriving DecidableEq, Repr

/-- A connected realtime socket: its id, the authenticated user stored on
it by authenticateSocket (none if unauthenticated), and the rooms the
socket has joined (socket.rooms). -/
structure Socket where
  id : Nat
  user : Option User
  rooms : List String
deriving DecidableEq, Repr

/-- Room name derivation used throughout webSocketServer.js:
the template string stream:streamId. -/
def roomName (streamId : String) : String := "stream:" ++ streamId

/-- The roomSubscribers Map of WebSocketServer: room name to the set of
subscribed socket ids. -/
abbrev RoomTable := List (String × Finset Nat)

/-- Member set of a room, the empty set when the room is absent. -/
def membersOf (t : RoomTable) (r : String) : Finset Nat :=
  (mapLookup t r).getD ∅

/-- The room-table mutation performed by WebSocketServer.handleJoinStream
once authorization passed: create the subscriber set if absent, add the
socket id, then broadcast the recomputed viewer count (the size of the
set).  Returns the new table and the broadcast count. -/
def joinRoom (t : RoomTable) (r : String) (sid : Nat) : RoomTable × Nat :=
  let t1 := if (mapLookup t r).isSome then t else t ++ [(r, (∅ : Finset Nat))]
  let ms' := insert sid ((mapLookup t1 r).getD ∅)
  (mapSet t1 r ms', ms'.card)

/-- WebSocketServer.handleJoinStream (src/services/webSocketServer.js,
lines 50-103): requires an authenticated socket, looks the stream up by
id, denies a private stream unless the caller is the owner or an admin,
then joins the room and broadcasts the recomputed viewer count.
Returns (handler result, new room table, broadcast count if any).
The user-joined and stream-info emissions carry no state and are
omitted. -/
def handleJoinStream (streams : List StreamRec) (t : RoomTable) (sock : Socket)
    (streamId : String) : Except String Unit × RoomTable × Option Nat :=
  match sock.user with
  | none => (.error "Not authenticated", t, none)
  | some user =>
    match streams.find? (fun s => s.id = streamId) with
    | none => (.error "Stream not found", t, none)
    | some stream =>
      if stream.isPrivate = true ∧ stream.user ≠ user.id ∧ user.role ≠ "admin" then
        (.error "Access to private stream denied", t, none)
      else
        let res := joinRoom t (roomName streamId) sock.id
        (.ok (), res.1, some res.2)

/-- The leave-stream handler (src/services/webSocketServer.js, lines
257-277): if the room exists, remove the socket id, broadcast the
recomputed viewer count, and delete the room when the set became empty.
Returns the new table and the broadcast count if any. -/
def leaveRoom (t : RoomTable) (r : String) (sid : Nat) : RoomTable × Option Nat :=
  match mapLookup t r with
  | none => (t, none)
  | some ms =>
    let ms' := ms.erase sid
    let t1 := mapSet t r ms'
    (if ms'.card = 0 then mapErase t1 r else t1, some ms'.card)

/-- The room-cleanup part of WebSocketServer.handleDisconnect (lines
192-213), for an authenticated socket: every room containing the socket
id has it removed, the recomputed viewer count is broadcast to that
room, and the room is deleted when its set became empty.  Returns the
new table and the list of (room, count) broadcasts in iteration
order. -/
def handleDisconnect : RoomTable → Nat → RoomTable × List (String × Nat)
  | [], _ => ([], [])
  | (r, ms) :: rest, sid =>
    let res := handleDisconnect rest sid
    if sid ∈ ms then
      let ms' := ms.erase sid
      (if ms'.card = 0 then res.1 else (r, ms') :: res.1, (r, ms'.card) :: res.2)
    else
      ((r, ms) :: res.1, res.2)

/-- A delivered chat message (the object built by handleChatMessage). -/
structure ChatMessage where
  userId : Nat
  username : String
  userRole : String
  message : String
  timestamp : Nat
deriving DecidableEq, Repr

/-- A delivered reaction event (the object built by handleReaction). -/
structure ReactionEvent where
  userId : Nat
  username : String
  reaction : String
  timestamp : Nat
deriving DecidableEq, Repr

/-- The two socket.io emission targets the handlers use:
io.to(room).emit reaches every member of the room;
socket.to(room).emit reaches every member except the sender. -/
inductive EmitTarget where
  | room (r : String)
  | roomExceptSender (r : String) (sender : Nat)
deriving DecidableEq, Repr

/-- socket.io delivery semantics for the two targets, relative to the
current subscriber table. -/
def recipients (t : RoomTable) : EmitTarget → Finset Nat
  | .room r => membersOf t r
  | .roomExceptSender r sid => (membersOf t r).erase sid

/-- JS String.prototype.trim: strip leading and trailing whitespace.
Embedded over the character list so that it evaluates in the kernel. -/
def jsTrim (s : String) : String :=
  ⟨((s.data.dropWhile Char.isWhitespace).reverse.dropWhile Char.isWhitespace).reverse⟩

/-- WebSocketServer.handleChatMessage (lines 106-145): requires an
authenticated socket; rejects an empty or whitespace-only message;
rejects a sender whose socket is not in the stream room; otherwise
builds the message stamped with the sender identity and the current
timestamp and broadcasts it to the whole room (io.to). -/
def handleChatMessage (sock : Socket) (streamId : String) (message : String)
    (now : Nat) : Except String (ChatMessage × EmitTarget) :=
  match sock.user with
  | none => .error "Not authenticated"
  | some user =>
    if jsTrim message = "" then .error "Message cannot be empty"
    else if roomName streamId ∉ sock.rooms then .error "Not in the stream room"
    else .ok ({ userId := user.id, username := user.username, userRole := user.role,
                message := jsTrim message, timestamp := now },
              .room (roomName streamId))

/-- WebSocketServer.handleReaction (lines 148-175): requires an
authenticated socket; rejects a sender whose socket is not in the
stream room; otherwise broadcasts the reaction to the room except the
sender (socket.to). -/
def handleReaction (sock : Socket) (streamId : String) (reaction : String)
    (now : Nat) : Except String (ReactionEvent × EmitTarget) :=
  match sock.user with
  | none => .error "Not authenticated"
  | some user =>
    if roomName streamId ∉ sock.rooms then .error "Not in the stream room"
    else .ok ({ userId := user.id, username := user.username, reaction := reaction,
                timestamp := now },
              .roomExceptSender (roomName streamId) sock.id)

/-- A publish session entry of the streamSessions Map as stored (keyed by
streamKey) by the prePublish handler of RTMPServer. -/
structure PubSession where
  connId : Nat
  streamId : String
  userId : Nat
  startTime : Nat
deriving DecidableEq, Repr

/-- The mutable state of RTMPServer touched by prePublish and endStream:
the stream documents (database) and the streamSessions Map. -/
structure RtmpState where
  streams : List StreamRec
  streamSessions : List (String × PubSession)
deriving DecidableEq, Repr

/-- RTMPServer.authenticatePublish (src/routes/streamRoutes.js, lines
115-153), the authorization decision: false when the token resolves to
no user, when the role is neither streamer nor admin, or when the user
owned stream key differs from the requested one (this last check is
applied to admins as well). -/
def authenticatePublish (user? : Option User) (streamKey : String) : Bool :=
  match user? with
  | none => false
  | some user =>
    if user.role ≠ "streamer" ∧ user.role ≠ "admin" then false
    else if user.streamKey ≠ streamKey then false
    else true

/-- RTMPServer.authenticatePublisher (lines 180-226): resolves the token
to a user, looks the stream up by streamKey; creates and saves a fresh
public stream document when none exists; otherwise rejects a user who
is neither the stream owner nor an admin.  Returns the user, the
stream, and the possibly-extended stream table. -/
def authenticatePublisher (users : List User) (streams : List StreamRec)
    (streamKey : String) (token : Option Nat) :
    Except String (User × StreamRec × List StreamRec) :=
  match token with
  | none => .error "No token provided"
  | some uid =>
    match users.find? (fun u => u.id = uid) with
    | none => .error "User not found"
    | some user =>
      match streams.find? (fun s => s.streamKey = streamKey) with
      | none =>
        let newStream : StreamRec :=
          { id := "new:" ++ streamKey, user := user.id, streamKey := streamKey,
            isPrivate := false, isLive := false, startedAt := none, endedAt := none }
        .ok (user, newStream, streams ++ [newStream])
      | some stream =>
        if stream.user ≠ user.id ∧ user.role ≠ "admin" then
          .error "Unauthorized to stream to this channel"
        else .ok (user, stream, streams)

/-- RTMPServer.authenticateViewer (lines 229-270): a public stream needs
no credential; a private stream requires a token resolving to the
stream owner, an admin, or a follower of the owner.  Returns the id of
the authenticated user when one was required. -/
def authenticateViewer (users : List User) (streams : List StreamRec)
    (streamKey : String) (token : Option Nat) : Except String (Option Nat) :=
  match streams.find? (fun s => s.streamKey = streamKey) with
  | none => .error "Stream not found"
  | some stream =>
    if stream.isPrivate = false then .ok none
    else
      match token with
      | none => .error "Authentication required for private stream"
      | some uid =>
        match users.find? (fun u => u.id = uid) with
        | none => .error "User not found"
        | some user =>
          let ownerFollowers :=
            ((users.find? (fun u => u.id = stream.user)).map User.followers).getD []
          if stream.user ≠ user.id ∧ user.role ≠ "admin" ∧ user.id ∉ ownerFollowers then
            .error "Not authorized to view this private stream"
          else .ok (some user.id)

/-- Result of the prePublish handler: the state afterwards and whether
the ingest session was rejected. -/
structure PrePublishResult where
  state : RtmpState
  rejected : Bool
deriving DecidableEq, Repr

/-- The prePublish handler of RTMPServer (lines 414-449): authenticate
the publisher; on failure reject the ingest session and leave the state
alone; on success store the session under the streamKey (overwriting
any existing entry, with no conflict check) and mark the stream
document live with a fresh startedAt. -/
def prePublish (users : List User) (st : RtmpState) (connId : Nat)
    (streamKey : String) (token : Option Nat) (now : Nat) : PrePublishResult :=
  match authenticatePublisher users st.streams streamKey token with
  | .error _ => { state := st, rejected := true }
  | .ok (user, stream, streams1) =>
    let sess : PubSession :=
      { connId := connId, streamId := stream.id, userId := user.id, startTime := now }
    let stream' := { stream with isLive := true, startedAt := some now }
    let streams' := streams1.map (fun s => if s.streamKey = streamKey then stream' else s)
    { state := { streams := streams',
                 streamSessions := mapSet st.streamSessions streamKey sess },
      rejected := false }

/-- The stream-ended payload emitted once by endStream. -/
structure StreamEndedEvent where
  streamId : String
  endedAt : Nat
  duration : Nat
deriving DecidableEq, Repr

/-- RTMPServer.endStream (lines 356-400): throws when the stream is
unknown or not live; otherwise clears isLive, records endedAt, removes
the streamSessions entry, and emits exactly one stream-ended event
carrying the duration in seconds.  The pair holds the outcome and the
events emitted by the call. -/
def endStream (st : RtmpState) (streamKey : String) (now : Nat) :
    Except String RtmpState × List StreamEndedEvent :=
  match st.streams.find? (fun s => s.streamKey = streamKey) with
  | none => (.error "Stream not found", [])
  | some stream =>
    if stream.isLive = false then (.error "Stream is not live", [])
    else
      let stream' := { stream with isLive := false, endedAt := some now }
      let streams' := st.streams.map (fun s => if s.streamKey = streamKey then stream' else s)
      (.ok { streams := streams', streamSessions := mapErase st.streamSessions streamKey },
       [{ streamId := stream.id, endedAt := now,
          duration := (now - stream.startedAt.getD 0) / 1000 }])

/-- An activeStreams entry of RTMPServer (the streamData object built by
the second prePublish handler, lines 566-580): its generated id, the
publisher, and the mutable viewers counter. -/
structure ActiveStream where
  id : String
  userId : Nat
  viewers : Int
deriving DecidableEq, Repr

/-- RTMPServer.updateViewerCount (lines 652-666): when the key is active,
set viewers to max(0, viewers + delta), broadcast and return it;
otherwise return 0 and change nothing. -/
def updateViewerCount (t : List (String × ActiveStream)) (streamKey : String)
    (delta : Int) : List (String × ActiveStream) × Int :=
  match mapLookup t streamKey with
  | none => (t, 0)
  | some s =>
    let v := max 0 (s.viewers + delta)
    (mapSet t streamKey { s with viewers := v }, v)

/-- A recordings entry of RecordingService. -/
structure Recording where
  id : String
  userId : Nat
  startTime : Nat
deriving DecidableEq, Repr

/-- RecordingService.startRecording (src/services/recordingService.js,
lines 28-84): returns false and changes nothing when a recording is
already in progress for the key; otherwise stores a fresh entry and
returns true. -/
def startRecording (recs : List (String × Recording)) (streamKey : String)
    (userId : Nat) (recordingId : String) (now : Nat) :
    Bool × List (String × Recording) :=
  if (mapLookup recs streamKey).isSome then (false, recs)
  else (true, mapSet recs streamKey
    { id := recordingId, userId := userId, startTime := now })

/-! Concrete data used by witnesses and counterexamples. -/

/-- A streamer owning stream key K1, followed by user 2. -/
def exOwner : User :=
  { id := 1, role := "streamer", streamKey := "K1", followers := [2], username := "owner" }

/-- A plain user who follows the owner. -/
def exFollower : User :=
  { id := 2, role := "user", streamKey := "", followers := [], username := "viewer" }

/-- An admin whose own stream key is A. -/
def exAdmin : User :=
  { id := 9, role := "admin", streamKey := "A", followers := [], username := "adm" }

/-- A live public stream under key K1. -/
def exStreamLive : StreamRec :=
  { id := "S1", user := 1, streamKey := "K1", isPrivate := false, isLive := true,
    startedAt := some 10000, endedAt := none }

/-- A live private stream of the owner under key K2. -/
def exStreamPrivate : StreamRec :=
  { id := "S2", user := 1, streamKey := "K2", isPrivate := true, isLive := true,
    startedAt := some 0, endedAt := none }

/-- An already ended stream under key K3. -/
def exStreamEnded : StreamRec :=
  { id := "S3", user := 1, streamKey := "K3", isPrivate := false, isLive := false,
    startedAt := some 10000, endedAt := some 20000 }

/-- The publish session stored for K1 by a first publish attempt. -/
def exSession : PubSession :=
  { connId := 5, streamId := "S1", userId := 1, startTime := 10000 }

/-- RTMP state with K1 live and its publish session present. -/
def exRtmpLive : RtmpState :=
  { streams := [exStreamLive], streamSessions := [("K1", exSession)] }

/-- RTMP state whose only stream has already ended. -/
def exRtmpEnded : RtmpState :=
  { streams := [exStreamEnded], streamSessions := [] }

/-- The RTMP state produced by ending exRtmpLive at time 20000. -/
def exRtmpAfterEnd : RtmpState :=
  { streams := [{ exStreamLive with isLive := false, endedAt := some 20000 }],
    streamSessions := [] }

/-- A room table: sockets 1 and 2 watch S1, socket 2 also watches S2. -/
def exTable : RoomTable := [("stream:S1", {1, 2}), ("stream:S2", {2})]

/-- Socket 1, authenticated as the follower, already in room stream:S1. -/
def exSockMember : Socket :=
  { id := 1, user := some exFollower, rooms := ["stream:S1"] }

/-- Socket 7, authenticated as the follower, in no room yet. -/
def exSockFresh : Socket :=
  { id := 7, user := some exFollower, rooms := [] }

/-- Socket 4, authenticated as the owner, in no room yet. -/
def exSockOwner : Socket :=
  { id := 4, user := some exOwner, rooms := [] }

/-- The chat message built for exSockMember sending hello at time 111. -/
def exChatMsg : ChatMessage :=
  { userId := 2, username := "viewer", userRole := "user",
    message := "hello", timestamp := 111 }

/-- The reaction event built for exSockMember reacting with fire at 111. -/
def exReaction : ReactionEvent :=
  { userId := 2, username := "viewer", reaction := "fire", timestamp := 111 }

/-- A recording entry already running for K1. -/
def exRecording : Recording := { id := "R1", userId := 1, startTime := 5 }

/-- An activeStreams entry whose viewers counter is at 0. -/
def exActive : ActiveStream := { id := "A1", userId := 1, viewers := 0 }

theorem mapLookup_mapSet_self {α : Type} (t : List (String × α)) (k : String) (v : α) :
    mapLookup (mapSet t k v) k = some v := by
  induction t with
  | nil => simp [mapSet, mapLookup]
  | cons p rest ih =>
    by_cases h : p.1 = k
    · simp [mapSet, h, mapLookup]
    · simp [mapSet, h, mapLookup, ih]

theorem mapLookup_mapErase_self {α : Type} (t : List (String × α)) (k : String) :
    mapLookup (mapErase t k) k = none := by
  induction t with
  | nil => simp [mapErase, mapLookup]
  | cons p rest ih =>
    by_cases h : p.1 = k
    · simpa [mapErase, h] using ih
    · simp [mapErase, h, mapLookup, ih]

theorem mapLookup_append_self {α : Type} (t : List (String × α)) (k : String) (v : α)
    (h : mapLookup t k = none) : mapLookup (t ++ [(k, v)]) k = some v := by
  induction t with
  | nil => simp [mapLookup]
  | cons p rest ih =>
    by_cases hp : p.1 = k
    · simp [mapLookup, hp] at h
    · simp [mapLookup, hp] at h ⊢
      exact ih h

theorem mem_mapSet {α : Type} {t : List (String × α)} {k : String} {v : α}
    {p : String × α} (h : p ∈ mapSet t k v) : p ∈ t ∨ p = (k, v) := by
  induction t with
  | nil =>
    simp [mapSet] at h
    exact Or.inr h
  | cons q rest ih =>
    by_cases hq : q.1 = k
    · simp [mapSet, hq] at h
      rcases h with h | h
      · exact Or.inr h
      · exact Or.inl (List.mem_cons_of_mem _ h)
    · simp [mapSet, hq] at h
      rcases h with h | h
      · exact Or.inl (by simp [h])
      · rcases ih h with h' | h'
        · exact Or.inl (List.mem_cons_of_mem _ h')
        · exact Or.inr h'

theorem mem_mapErase {α : Type} {t : List (String × α)} {k : String}
    {p : String × α} (h : p ∈ mapErase t k) : p ∈ t := by
  induction t with
  | nil => simp [mapErase] at h
  | cons q rest ih =>
    by_cases hq : q.1 = k
    · simp [mapErase, hq] at h
      exact List.mem_cons_of_mem _ (ih h)
    · simp [mapErase, hq] at h
      rcases h with h | h
      · exact List.mem_cons.mpr (Or.inl h)
      · exact List.mem_cons_of_mem _ (ih h)

theorem mapLookup_eq_none_of_not_mem {α : Type} {t : List (String × α)} {k : String}
    (h : k ∉ t.map Prod.fst) : mapLookup t k = none := by
  induction t with
  | nil => rfl
  | cons p rest ih =>
    simp only [List.map_cons, List.mem_cons, not_or] at h
    have h1 : p.1 ≠ k := fun hc => h.1 hc.symm
    simp [mapLookup, h1, ih h.2]

theorem handleDisconnect_keys {t : RoomTable} {sid : Nat} {r : String}
    (h : r ∈ (handleDisconnect t sid).1.map Prod.fst) : r ∈ t.map Prod.fst := by
  induction t with
  | nil => simp [handleDisconnect] at h
  | cons q rest ih =>
    obtain ⟨q1, ms⟩ := q
    by_cases hm : sid ∈ ms
    · by_cases hc0 : (ms.erase sid).card = 0
      · simp only [handleDisconnect, if_pos hm, if_pos hc0] at h
        exact List.mem_cons_of_mem _ (ih h)
      · simp only [handleDisconnect, if_pos hm, if_neg hc0, List.map_cons,
          List.mem_cons] at h
        rcases h with h | h
        · exact List.mem_cons.mpr (Or.inl h)
        · exact List.mem_cons_of_mem _ (ih h)
    · simp only [handleDisconnect, if_neg hm, List.map_cons, List.mem_cons] at h
      rcases h with h | h
      · exact List.mem_cons.mpr (Or.inl h)
      · exact List.mem_cons_of_mem _ (ih h)

theorem handleDisconnect_bcast_keys {t : RoomTable} {sid : Nat} {p : String × Nat}
    (h : p ∈ (handleDisconnect t sid).2) : p.1 ∈ t.map Prod.fst := by
  induction t with
  | nil => simp [handleDisconnect] at h
  | cons q rest ih =>
    obtain ⟨q1, ms⟩ := q
    by_cases hm : sid ∈ ms
    · by_cases hc0 : (ms.erase sid).card = 0
      · simp only [handleDisconnect, if_pos hm, if_pos hc0, List.mem_cons] at h
        rcases h with h | h
        · simp [h]
        · exact List.mem_cons_of_mem _ (ih h)
      · simp only [handleDisconnect, if_pos hm, if_neg hc0, List.mem_cons] at h
        rcases h with h | h
        · simp [h]
        · exact List.mem_cons_of_mem _ (ih h)
    · simp only [handleDisconnect, if_neg hm] at h
      exact List.mem_cons_of_mem _ (ih h)

theorem joinRoom_count (t : RoomTable) (r : String) (sid : Nat) :
    (joinRoom t r sid).2 = (membersOf (joinRoom t r sid).1 r).card := by
  simp [joinRoom, membersOf, mapLookup_mapSet_self]

theorem leaveRoom_count (t : RoomTable) (r : String) (sid : Nat) (c : Nat)
    (hc : (leaveRoom t r sid).2 = some c) :
    c = (membersOf (leaveRoom t r sid).1 r).card := by
  cases hm : mapLookup t r with
  | none => simp [leaveRoom, hm] at hc
  | some ms =>
    simp only [leaveRoom, hm, Option.some.injEq] at hc
    by_cases hc0 : (ms.erase sid).card = 0
    · simp [leaveRoom, hm, hc0, membersOf, mapLookup_mapErase_self, ← hc]
    · simp [leaveRoom, hm, hc0, membersOf, mapLookup_mapSet_self, ← hc]

theorem handleDisconnect_counts (t : RoomTable) (sid : Nat) :
    (t.map Prod.fst).Nodup →
    ∀ p ∈ (handleDisconnect t sid).2,
      p.2 = (membersOf (handleDisconnect t sid).1 p.1).card := by
  induction t with
  | nil => intro _ p hp; simp [handleDisconnect] at hp
  | cons q rest ih =>
    intro hnd p hp
    obtain ⟨q1, ms⟩ := q
    simp only [List.map_cons, List.nodup_cons] at hnd
    obtain ⟨hq1, hrest⟩ := hnd
    by_cases hm : sid ∈ ms
    · by_cases hc0 : (ms.erase sid).card = 0
      · simp only [handleDisconnect, if_pos hm, if_pos hc0, List.mem_cons] at hp ⊢
        rcases hp with hp | hp
        · subst hp
          have hnone : mapLookup (handleDisconnect rest sid).1 q1 = none :=
            mapLookup_eq_none_of_not_mem (fun hin => hq1 (handleDisconnect_keys hin))
          simp [membersOf, hnone, hc0]
        · exact ih hrest p hp
      · simp only [handleDisconnect, if_pos hm, if_neg hc0, List.mem_cons] at hp ⊢
        rcases hp with hp | hp
        · subst hp
          simp [membersOf, mapLookup]
        · have hne : q1 ≠ p.1 := fun he => hq1 (he ▸ handleDisconnect_bcast_keys hp)
          have := ih hrest p hp
          simpa [membersOf, mapLookup, hne] using this
    · simp only [handleDisconnect, if_neg hm] at hp ⊢
      have hne : q1 ≠ p.1 := fun he => hq1 (he ▸ handleDisconnect_bcast_keys hp)
      have := ih hrest p hp
      simpa [membersOf, mapLookup, hne] using this

theorem mapSet_append {α : Type} (t : List (String × α)) (k : String) (w v : α)
    (h : mapLookup t k = none) : mapSet (t ++ [(k, w)]) k v = t ++ [(k, v)] := by
  induction t with
  | nil => simp [mapSet]
  | cons p rest ih =>
    by_cases hp : p.1 = k
    · simp [mapLookup, hp] at h
    · simp [mapLookup, hp] at h
      simp [mapSet, hp, ih h]

theorem mem_mapErase_ne {α : Type} {t : List (String × α)} {k : String}
    {p : String × α} (h : p ∈ mapErase t k) : p.1 ≠ k := by
  induction t with
  | nil => simp [mapErase] at h
  | cons q rest ih =>
    by_cases hq : q.1 = k
    · simp only [mapErase, if_pos hq] at h
      exact ih h
    · simp only [mapErase, if_neg hq, List.mem_cons] at h
      rcases h with h | h
      · subst h; exact hq
      · exact ih h

theorem handleDisconnect_nonempty (t : RoomTable) (sid : Nat)
    (hne : ∀ p ∈ t, (p.2 : Finset Nat) ≠ ∅) :
    ∀ p ∈ (handleDisconnect t sid).1, p.2 ≠ ∅ := by
  induction t with
  | nil => intro p hp; simp [handleDisconnect] at hp
  | cons q rest ih =>
    obtain ⟨q1, ms⟩ := q
    intro p hp
    have hrest : ∀ p ∈ rest, (p.2 : Finset Nat) ≠ ∅ :=
      fun p hp => hne p (List.mem_cons_of_mem _ hp)
    by_cases hm : sid ∈ ms
    · by_cases hc0 : (ms.erase sid).card = 0
      · simp only [handleDisconnect, if_pos hm, if_pos hc0] at hp
        exact ih hrest p hp
      · simp only [handleDisconnect, if_pos hm, if_neg hc0, List.mem_cons] at hp
        rcases hp with hp | hp
        · subst hp
          exact fun he => hc0 (by rw [show ms.erase sid = ∅ from he]; rfl)
        · exact ih hrest p hp
    · simp only [handleDisconnect, if_neg hm, List.mem_cons] at hp
      rcases hp with hp | hp
      · subst hp; exact hne _ (List.mem_cons_self _ _)
      · exact ih hrest p hp

theorem updateViewerCount_step_nonneg (t : List (String × ActiveStream))
    (k : String) (delta : Int) (hpos : ∀ p ∈ t, 0 ≤ p.2.viewers) :
    ∀ p ∈ (updateViewerCount t k delta).1, 0 ≤ p.2.viewers := by
  intro p hp
  cases hm : mapLookup t k with
  | none => simp only [updateViewerCount, hm] at hp; exact hpos p hp
  | some s =>
    simp only [updateViewerCount, hm] at hp
    rcases mem_mapSet hp with h | h
    · exact hpos p h
    · subst h; exact le_max_left 0 _

theorem updateViewerCount_fold_nonneg (calls : List (String × Int)) :
    ∀ t : List (String × ActiveStream), (∀ p ∈ t, 0 ≤ p.2.viewers) →
    ∀ p ∈ calls.foldl (fun acc c => (updateViewerCount acc c.1 c.2).1) t,
      0 ≤ p.2.viewers := by
  induction calls with
  | nil => intro t h p hp; exact h p hp
  | cons c rest ih =>
    intro t h p hp
    exact ih _ (updateViewerCount_step_nonneg t c.1 c.2 h) p hp

theorem find?_update_self (l : List StreamRec) (k : String) (s' : StreamRec)
    (hs' : s'.streamKey = k)
    (h : (l.find? (fun s => s.streamKey = k)).isSome) :
    (l.map (fun s => if s.streamKey = k then s' else s)).find?
      (fun s => s.streamKey = k) = some s' := by
  induction l with
  | nil => simp at h
  | cons a rest ih =>
    by_cases ha : a.streamKey = k
    · simp [List.find?, ha, hs']
    · have hb : (decide (a.streamKey = k)) = false := by simp [ha]
      simp only [List.find?, List.map_cons, if_neg ha, hb] at h ⊢
      exact ih h

/-- C5, counterexample: an admin whose own stream key differs from the
requested streamKey is rejected by RTMPServer.authenticatePublish, against
the claim that an admin may publish under a streamKey it does not own. -/
theorem authenticatePublish_rejects_admin_foreign_key :
    exAdmin.role = "admin" ∧ exAdmin.streamKey ≠ "B" ∧
    authenticatePublish (some exAdmin) "B" = false := by
  refine ⟨rfl, by decide, rfl⟩

/-- C5, amended: publish authentication succeeds exactly when the role is
streamer or admin AND the identity's owned stream key equals the requested
one; the ownership check is applied to admins as well, so an admin is not
permitted to publish under a streamKey it does not own. -/
theorem authenticatePublish_iff (user : User) (streamKey : String) :
    authenticatePublish (some user) streamKey = true ↔
      ((user.role = "streamer" ∨ user.role = "admin") ∧ user.streamKey = streamKey) := by
  simp only [authenticatePublish]
  split_ifs with h1 h2
  · simp_all
  · simp_all
  · simp_all
    tauto

/-- C9: starting a recording while one is already in progress for the
streamKey returns false and leaves the recordings table unchanged. -/
theorem startRecording_already_running (recs : List (String × Recording))
    (streamKey : String) (userId : Nat) (recordingId : String) (now : Nat)
    (h : (mapLookup recs streamKey).isSome) :
    startRecording recs streamKey userId recordingId now = (false, recs) := by
  simp [startRecording, h]

/-- Witness for C9: a concrete second start call for a key that is already
recording returns false and the table is unchanged. -/
theorem startRecording_already_running_witness :
    startRecording [("K1", exRecording)] "K1" 2 "R2" 6 = (false, [("K1", exRecording)]) :=
  startRecording_already_running [("K1", exRecording)] "K1" 2 "R2" 6 (by decide)

/-- C10: the RTMP-side viewers counter never becomes negative: any sequence
of updateViewerCount calls keeps every stored viewers value at or above 0,
and a decrement applied when the counter is already 0 leaves it at 0 (both
in the returned count and in the stored entry). -/
theorem updateViewerCount_nonneg (t : List (String × ActiveStream))
    (calls : List (String × Int)) (streamKey : String) (s : ActiveStream)
    (hpos : ∀ p ∈ t, 0 ≤ p.2.viewers)
    (hs : mapLookup t streamKey = some s) (h0 : s.viewers = 0) :
    (∀ p ∈ calls.foldl (fun acc c => (updateViewerCount acc c.1 c.2).1) t,
       0 ≤ p.2.viewers)
  ∧ (updateViewerCount t streamKey (-1)).2 = 0
  ∧ mapLookup (updateViewerCount t streamKey (-1)).1 streamKey =
      some { s with viewers := 0 } := by
  refine ⟨updateViewerCount_fold_nonneg calls t hpos, ?_, ?_⟩
  · simp [updateViewerCount, hs, h0]
  · simp [updateViewerCount, hs, h0, mapLookup_mapSet_self]

/-- Witness for C10 at a concrete table whose counter stands at 0. -/
theorem updateViewerCount_nonneg_witness :
    (updateViewerCount [("K1", exActive)] "K1" (-1)).2 = 0 ∧
    mapLookup (updateViewerCount [("K1", exActive)] "K1" (-1)).1 "K1" =
      some { exActive with viewers := 0 } := by
  have h := updateViewerCount_nonneg [("K1", exActive)]
    [("K1", 5), ("K1", -3), ("K1", -9)] "K1" exActive (by decide) (by decide) rfl
  exact ⟨h.2.1, h.2.2⟩

/-- C1, counterexample: with a publish session already stored for K1 and
the stream live, a second authorized publish attempt is NOT rejected and
the state is changed (the session entry is overwritten and the stream
re-stamped), not rejected with a ConflictError with state unchanged. -/
theorem prePublish_second_attempt_not_rejected :
    mapLookup exRtmpLive.streamSessions "K1" = some exSession ∧
    exStreamLive.isLive = true ∧
    (prePublish [exOwner] exRtmpLive 6 "K1" (some 1) 20000).rejected = false ∧
    (prePublish [exOwner] exRtmpLive 6 "K1" (some 1) 20000).state ≠ exRtmpLive := by
  refine ⟨rfl, rfl, rfl, by decide⟩

/-- C1, amended: the prePublish handler performs no exclusivity check:
whenever publisher authentication succeeds (the stream owner, or an admin
for an existing stream), the attempt is accepted even while a publish
session already exists for the streamKey, and the streamSessions entry is
overwritten with the new session. -/
theorem prePublish_overwrites_existing_session (users : List User) (st : RtmpState)
    (connId : Nat) (streamKey : String) (token : Option Nat) (now : Nat)
    (user : User) (stream : StreamRec) (streams1 : List StreamRec)
    (hauth : authenticatePublisher users st.streams streamKey token =
      .ok (user, stream, streams1)) :
    (prePublish users st connId streamKey token now).rejected = false ∧
    mapLookup (prePublish users st connId streamKey token now).state.streamSessions
        streamKey =
      some { connId := connId, streamId := stream.id, userId := user.id,
             startTime := now } := by
  simp [prePublish, hauth, mapLookup_mapSet_self]

/-- Witness for C1's amended statement: the concrete second attempt of the
counterexample is accepted and its session entry replaces the old one. -/
theorem prePublish_overwrites_existing_session_witness :
    (prePublish [exOwner] exRtmpLive 6 "K1" (some 1) 20000).rejected = false ∧
    mapLookup (prePublish [exOwner] exRtmpLive 6 "K1" (some 1) 20000).state.streamSessions
        "K1" =
      some { connId := 6, streamId := exStreamLive.id, userId := exOwner.id,
             startTime := 20000 } :=
  prePublish_overwrites_existing_session [exOwner] exRtmpLive 6 "K1" (some 1) 20000
    exOwner exStreamLive [exStreamLive] (by rfl)

/-- C3, counterexample: a repeated end call on an already-ended stream
throws the error Stream is not live instead of being a no-op returning the
previous endedAt. -/
theorem endStream_repeat_errors :
    exStreamEnded.isLive = false ∧ exStreamEnded.endedAt = some 20000 ∧
    endStream exRtmpEnded "K3" 30000 = (.error "Stream is not live", []) := by
  exact ⟨rfl, rfl, rfl⟩

/-- C3, amended: ending a live stream succeeds and emits the stream-ended
event exactly once, but the operation is not idempotent: a repeated end
call on the now-ended stream fails with Stream is not live and emits
nothing, rather than returning the previous endedAt. -/
theorem endStream_once_then_error (st : RtmpState) (streamKey : String)
    (now now2 : Nat) (stream : StreamRec)
    (hf : st.streams.find? (fun s => s.streamKey = streamKey) = some stream)
    (hl : stream.isLive = true) :
    ∃ st1, (endStream st streamKey now).1 = .ok st1 ∧
      (endStream st streamKey now).2 =
        [{ streamId := stream.id, endedAt := now,
           duration := (now - stream.startedAt.getD 0) / 1000 }] ∧
      (endStream st1 streamKey now2).1 = .error "Stream is not live" ∧
      (endStream st1 streamKey now2).2 = [] := by
  have hsk : stream.streamKey = streamKey := by
    have := List.find?_some hf
    simpa using this
  have hfind := find?_update_self st.streams streamKey
    { stream with isLive := false, endedAt := some now } hsk
    (by rw [hf]; rfl)
  refine ⟨{ streams := st.streams.map
              (fun s => if s.streamKey = streamKey then
                { stream with isLive := false, endedAt := some now } else s),
            streamSessions := mapErase st.streamSessions streamKey }, ?_, ?_, ?_, ?_⟩
  · simp [endStream, hf, hl]
  · simp [endStream, hf, hl]
  · simp [endStream, hfind]
  · simp [endStream, hfind]

/-- Witness for C3's amended statement at the concrete live state: the
first end call succeeds with one event, the second fails. -/
theorem endStream_once_then_error_witness :
    ∃ st1, (endStream exRtmpLive "K1" 20000).1 = .ok st1 ∧
      (endStream exRtmpLive "K1" 20000).2 =
        [{ streamId := exStreamLive.id, endedAt := 20000,
           duration := (20000 - exStreamLive.startedAt.getD 0) / 1000 }] ∧
      (endStream st1 "K1" 30000).1 = .error "Stream is not live" ∧
      (endStream st1 "K1" 30000).2 = [] :=
  endStream_once_then_error exRtmpLive "K1" 20000 30000 exStreamLive (by rfl) rfl

/-- C4, counterexample: a follower of the owner (neither owner nor admin)
is denied when joining the room of a private stream, although the claim
says followers are admitted. -/
theorem join_denies_follower :
    exFollower.id ∈ exOwner.followers ∧
    exStreamPrivate.isPrivate = true ∧
    exStreamPrivate.user ≠ exFollower.id ∧
    exFollower.role ≠ "admin" ∧
    (handleJoinStream [exStreamPrivate] [] exSockFresh "S2").1 =
      Except.error "Access to private stream denied" := by
  exact ⟨by decide, rfl, by decide, by decide, rfl⟩

/-- C4, amended: joining the room of a private stream succeeds exactly
when the authenticated identity is the stream owner or an admin; a
follower who is neither is rejected (the owner/admin/follower rule lives
only in the RTMP-side authenticateViewer, not in the room join). -/
theorem private_join_iff_owner_or_admin (streams : List StreamRec) (t : RoomTable)
    (sock : Socket) (streamId : String) (user : User) (stream : StreamRec)
    (hu : sock.user = some user)
    (hf : streams.find? (fun s => s.id = streamId) = some stream)
    (hp : stream.isPrivate = true) :
    (handleJoinStream streams t sock streamId).1 = .ok () ↔
      (stream.user = user.id ∨ user.role = "admin") := by
  by_cases hacc : stream.isPrivate = true ∧ stream.user ≠ user.id ∧ user.role ≠ "admin"
  · obtain ⟨-, hne, hnadm⟩ := hacc
    simp [handleJoinStream, hu, hf, hp, hne, hnadm]
  · have hoa : stream.user = user.id ∨ user.role = "admin" := by
      by_contra hcon
      push_neg at hcon
      exact hacc ⟨hp, hcon.1, hcon.2⟩
    simp [handleJoinStream, hu, hf, hacc, hoa]

/-- Witness for C4's amended statement: the owner joining the concrete
private stream succeeds. -/
theorem private_join_iff_owner_or_admin_witness :
    (handleJoinStream [exStreamPrivate] [] exSockOwner "S2").1 = .ok () :=
  (private_join_iff_owner_or_admin [exStreamPrivate] [] exSockOwner "S2"
    exOwner exStreamPrivate rfl (by rfl) rfl).mpr (Or.inl rfl)

/-- C6: for an authenticated sender, a chat message fails with the
validation error exactly when the text is empty or whitespace-only; with
non-blank text it fails with the membership error exactly when the socket
is not in the stream room; and it is delivered only when both checks
pass, stamped with the sender identity and the timestamp. -/
theorem handleChatMessage_spec (sock : Socket) (streamId : String)
    (message : String) (now : Nat) (user : User) (hu : sock.user = some user) :
    ((handleChatMessage sock streamId message now = .error "Message cannot be empty") ↔
       jsTrim message = "")
  ∧ (jsTrim message ≠ "" →
       ((handleChatMessage sock streamId message now = .error "Not in the stream room") ↔
          roomName streamId ∉ sock.rooms))
  ∧ (∀ cm tgt, handleChatMessage sock streamId message now = .ok (cm, tgt) →
       jsTrim message ≠ "" ∧ roomName streamId ∈ sock.rooms ∧
       cm.userId = user.id ∧ cm.username = user.username ∧
       cm.message = jsTrim message ∧ cm.timestamp = now) := by
  have hne1 : ("Not in the stream room" : String) ≠ "Message cannot be empty" := by
    decide
  by_cases hm : jsTrim message = ""
  · simp [handleChatMessage, hu, hm]
  · by_cases hr : roomName streamId ∈ sock.rooms
    · refine ⟨by simp [handleChatMessage, hu, hm, hr], fun _ => by
        simp [handleChatMessage, hu, hm, hr], ?_⟩
      intro cm tgt h
      simp only [handleChatMessage, hu, if_neg hm, hr, not_true_eq_false,
        if_false, Except.ok.injEq, Prod.mk.injEq] at h
      obtain ⟨h1, -⟩ := h
      exact ⟨hm, hr, by simp [← h1], by simp [← h1], by simp [← h1], by simp [← h1]⟩
    · simp [handleChatMessage, hu, hm, hr, hne1]

/-- Witness for C6: a whitespace-only message is rejected with the
validation error, and hello from a room member is delivered stamped with
the member identity and timestamp. -/
theorem handleChatMessage_spec_witness :
    handleChatMessage exSockMember "S1" " " 111 = .error "Message cannot be empty"
  ∧ (jsTrim "hello" ≠ "" ∧ roomName "S1" ∈ exSockMember.rooms ∧
      exChatMsg.userId = exFollower.id ∧ exChatMsg.username = exFollower.username ∧
      exChatMsg.message = jsTrim "hello" ∧ exChatMsg.timestamp = 111) :=
  ⟨(handleChatMessage_spec exSockMember "S1" " " 111 exFollower rfl).1.mpr (by decide),
   (handleChatMessage_spec exSockMember "S1" "hello" 111 exFollower rfl).2.2
     exChatMsg (.room (roomName "S1")) (by rfl)⟩

/-- C7: a successful chat message is emitted to every member of the room
(the sender included whenever it is a member), while a successful
reaction is emitted to every member except the sender, which never
receives it. -/
theorem fanout_recipients_spec (t : RoomTable) (sock : Socket) (streamId : String)
    (message reaction : String) (now : Nat) :
    (∀ cm tgt, handleChatMessage sock streamId message now = .ok (cm, tgt) →
       recipients t tgt = membersOf t (roomName streamId) ∧
       (sock.id ∈ membersOf t (roomName streamId) → sock.id ∈ recipients t tgt))
  ∧ (∀ re tgt, handleReaction sock streamId reaction now = .ok (re, tgt) →
       recipients t tgt = (membersOf t (roomName streamId)).erase sock.id ∧
       sock.id ∉ recipients t tgt) := by
  constructor
  · intro cm tgt h
    cases hsu : sock.user with
    | none => simp [handleChatMessage, hsu] at h
    | some u =>
      by_cases hm : jsTrim message = ""
      · simp [handleChatMessage, hsu, hm] at h
      · by_cases hr : roomName streamId ∈ sock.rooms
        · simp [handleChatMessage, hsu, hm, hr] at h
          obtain ⟨-, h2⟩ := h
          rw [← h2]
          exact ⟨rfl, fun hmem => hmem⟩
        · simp [handleChatMessage, hsu, hm, hr] at h
  · intro re tgt h
    cases hsu : sock.user with
    | none => simp [handleReaction, hsu] at h
    | some u =>
      by_cases hr : roomName streamId ∈ sock.rooms
      · simp [handleReaction, hsu, hr] at h
        obtain ⟨-, h2⟩ := h
        rw [← h2]
        exact ⟨rfl, Finset.not_mem_erase _ _⟩
      · simp [handleReaction, hsu, hr] at h

/-- Witness for C7 at the concrete table: the chat target reaches the
whole room (sender 1 included), the reaction target excludes sender 1. -/
theorem fanout_recipients_spec_witness :
    recipients exTable (EmitTarget.room (roomName "S1")) =
      membersOf exTable (roomName "S1")
  ∧ (1 : Nat) ∈ recipients exTable (EmitTarget.room (roomName "S1"))
  ∧ recipients exTable (EmitTarget.roomExceptSender (roomName "S1") 1) =
      (membersOf exTable (roomName "S1")).erase 1
  ∧ (1 : Nat) ∉ recipients exTable (EmitTarget.roomExceptSender (roomName "S1") 1) := by
  have h := fanout_recipients_spec exTable exSockMember "S1" "hello" "fire" 111
  have h1 := h.1 exChatMsg (.room (roomName "S1")) (by rfl)
  have h2 := h.2 exReaction (.roomExceptSender (roomName "S1") 1) (by rfl)
  exact ⟨h1.1, h1.2 (by decide), h2.1, h2.2⟩

/-- C2: the viewer count broadcast by a join, a leave, or a disconnect
always equals the cardinality of the room member set in the resulting
table (room names are unique, as keys of a JS Map are); the count is
derived from the membership set rather than kept as a separate
counter. -/
theorem viewer_count_eq_membership_card (streams : List StreamRec) (t : RoomTable)
    (sock : Socket) (streamId : String) (r : String) (sid : Nat)
    (hnd : (t.map Prod.fst).Nodup) :
    (∀ c, (handleJoinStream streams t sock streamId).2.2 = some c →
       c = (membersOf (handleJoinStream streams t sock streamId).2.1
             (roomName streamId)).card)
  ∧ (∀ c, (leaveRoom t r sid).2 = some c →
       c = (membersOf (leaveRoom t r sid).1 r).card)
  ∧ (∀ p ∈ (handleDisconnect t sid).2,
       p.2 = (membersOf (handleDisconnect t sid).1 p.1).card) := by
  refine ⟨?_, fun c hc => leaveRoom_count t r sid c hc,
    handleDisconnect_counts t sid hnd⟩
  intro c hc
  cases hsu : sock.user with
  | none => simp [handleJoinStream, hsu] at hc
  | some u =>
    cases hf : streams.find? (fun s => s.id = streamId) with
    | none => simp [handleJoinStream, hsu, hf] at hc
    | some s =>
      by_cases hp : s.isPrivate = true ∧ s.user ≠ u.id ∧ u.role ≠ "admin"
      · simp [handleJoinStream, hsu, hf, hp] at hc
      · simp only [handleJoinStream, hsu, hf, if_neg hp, Option.some.injEq] at hc
        subst hc
        simp only [handleJoinStream, hsu, hf, if_neg hp]
        exact joinRoom_count t (roomName streamId) sock.id

/-- Witness for C2 at the concrete table: join broadcasts 3 = |{7,1,2}|,
leave broadcasts 1 = |{2}|, disconnect broadcasts 1 = |{2}|. -/
theorem viewer_count_eq_membership_card_witness :
    3 = (membersOf (handleJoinStream [exStreamLive] exTable exSockFresh "S1").2.1
          (roomName "S1")).card
  ∧ 1 = (membersOf (leaveRoom exTable "stream:S1" 1).1 "stream:S1").card
  ∧ 1 = (membersOf (handleDisconnect exTable 1).1 "stream:S1").card := by
  have h := viewer_count_eq_membership_card [exStreamLive] exTable exSockFresh "S1"
    "stream:S1" 1 (by decide)
  exact ⟨h.1 3 (by decide), h.2.1 1 (by decide), h.2.2 ("stream:S1", 1) (by decide)⟩

/-- C8: join, leave and disconnect preserve the invariant that every room
present in the table has a non-empty member set (an operation that
empties a set prunes the room entry); a join for an absent room creates
a fresh room and broadcasts viewer count 1; and a leave that empties the
member set removes the room entry from the table. -/
theorem room_prune_spec (t : RoomTable) (r : String) (sid : Nat)
    (hne : ∀ p ∈ t, (p.2 : Finset Nat) ≠ ∅) :
    (∀ p ∈ (joinRoom t r sid).1, p.2 ≠ ∅)
  ∧ (∀ p ∈ (leaveRoom t r sid).1, p.2 ≠ ∅)
  ∧ (∀ p ∈ (handleDisconnect t sid).1, p.2 ≠ ∅)
  ∧ (mapLookup t r = none → (joinRoom t r sid).2 = 1)
  ∧ (∀ ms, mapLookup t r = some ms → ms.erase sid = ∅ →
       mapLookup (leaveRoom t r sid).1 r = none) := by
  refine ⟨?_, ?_, handleDisconnect_nonempty t sid hne, ?_, ?_⟩
  · intro p hp
    by_cases hs : (mapLookup t r).isSome = true
    · simp only [joinRoom, if_pos hs] at hp
      rcases mem_mapSet hp with h | h
      · exact hne p h
      · subst h; exact Finset.insert_ne_empty _ _
    · have h0 : mapLookup t r = none := Option.not_isSome_iff_eq_none.mp hs
      simp only [joinRoom, if_neg hs,
        mapSet_append t r (∅ : Finset Nat) _ h0, List.mem_append,
        List.mem_singleton] at hp
      rcases hp with h | h
      · exact hne p h
      · subst h; exact Finset.insert_ne_empty _ _
  · intro p hp
    cases hm : mapLookup t r with
    | none => simp only [leaveRoom, hm] at hp; exact hne p hp
    | some ms =>
      by_cases hc0 : (ms.erase sid).card = 0
      · simp only [leaveRoom, hm, if_pos hc0] at hp
        have h1 := mem_mapErase hp
        have h2 := mem_mapErase_ne hp
        rcases mem_mapSet h1 with h | h
        · exact hne p h
        · exact absurd (by rw [h]) h2
      · simp only [leaveRoom, hm, if_neg hc0] at hp
        rcases mem_mapSet hp with h | h
        · exact hne p h
        · subst h
          exact fun he => hc0 (by rw [show ms.erase sid = ∅ from he]; rfl)
  · intro h
    simp [joinRoom, h, mapLookup_append_self t r (∅ : Finset Nat) h]
  · intro ms hm he
    have hc0 : (ms.erase sid).card = 0 := by rw [he]; rfl
    simp [leaveRoom, hm, hc0, mapLookup_mapErase_self]

/-- Witness for C8: a join for an absent room broadcasts count 1, and a
leave emptying a room removes its entry. -/
theorem room_prune_spec_witness :
    (joinRoom exTable "stream:S9" 7).2 = 1 ∧
    mapLookup (leaveRoom exTable "stream:S2" 2).1 "stream:S2" = none := by
  have h := room_prune_spec exTable "stream:S9" 7 (by decide)
  have h2 := room_prune_spec exTable "stream:S2" 2 (by decide)
  exact ⟨h.2.2.2.1 (by decide), h2.2.2.2.2 ({2} : Finset Nat) (by decide) (by decide)⟩

end RMtp
